import Mathlib

/-!
Shallow embedding of the `caddypy` client library (src/caddypy/caddy.py).

The library is a thin client for the Caddy administrative HTTP API.  Its
logic lives in four places, each embedded below as an executable function:

* `Caddy.generate_url` / `Caddy.generate_url_by_path` — request-target
  construction (caddy.py lines 45-71);
* `Caddy.prepare_config_data` — payload normalization (lines 73-92);
* `Caddy.executeBody` / `Caddy.executeHeaders` / `Caddy.execute` — the
  transport invoker `_execute` (lines 94-114), with the network call made
  explicit by passing the `HttpResponse` as an argument;
* the facade operations `Caddy.config`, `Caddy.load`, `Caddy.add`,
  `Caddy.update`, `Caddy.delete`, `Caddy.stop` (lines 116-260).

Python values are modelled by `PyVal`; `json.loads` / `json.dumps` by the
executable `jsonParse` / `jsonDumps` below.  Modelling choices: JSON numbers
are restricted to integers (the parser rejects a fractional part or
exponent; no claim involves floats); dicts are association lists in
insertion order (all inputs in the claims have distinct keys); code points
above 0xFFFF and surrogate pairs in string escapes are outside the model;
raised Python exceptions are `Except.error` values of type `PyError`.
-/

/-- Python values relevant to the library: JSON-like data plus `bytes`
(modelled as its decoded text), `None`, booleans and integers. -/
inductive PyVal : Type where
  | dict : List (String × PyVal) → PyVal
  | list : List PyVal → PyVal
  | str : String → PyVal
  | bytes : String → PyVal
  | int : Int → PyVal
  | bool : Bool → PyVal
  | pyNone : PyVal

/-- Python exceptions the library can raise: `json.JSONDecodeError`,
`TypeError` (raised by `json.loads` on a non `str`/`bytes` argument and by
`json.dumps` on `bytes`), and `requests.HTTPError` carrying the response
status and body. -/
inductive PyError : Type where
  | jsonDecodeError : PyError
  | typeError : PyError
  | httpError : Nat → String → PyError
deriving DecidableEq

/-- JSON whitespace skipping (space, tab, newline, carriage return). -/
def skipWs : List Char → List Char
  | [] => []
  | c :: cs =>
    if c = ' ' ∨ c = '\t' ∨ c = '\n' ∨ c = '\r' then skipWs cs else c :: cs

/-- Value of a hexadecimal digit, if the character is one. -/
def hexDigitVal (c : Char) : Option Nat :=
  if '0' ≤ c ∧ c ≤ '9' then some (c.toNat - '0'.toNat)
  else if 'a' ≤ c ∧ c ≤ 'f' then some (c.toNat - 'a'.toNat + 10)
  else if 'A' ≤ c ∧ c ≤ 'F' then some (c.toNat - 'A'.toNat + 10)
  else none

/-- Decimal digits taken greedily from the front of the input. -/
def takeDigits : List Char → (List Char × List Char)
  | [] => ([], [])
  | c :: cs =>
    if c.isDigit then
      let p := takeDigits cs
      (c :: p.1, p.2)
    else ([], c :: cs)

/-- Numeric value of a digit string, accumulator style. -/
def digitsToNat : List Char → Nat → Nat
  | [], acc => acc
  | c :: cs, acc => digitsToNat cs (acc * 10 + (c.toNat - '0'.toNat))

/-- JSON integer token: grammar `-? (0 | [1-9][0-9]*)`.  A following `.`,
`e` or `E` (a float literal) makes the parse fail: floats are outside the
model. -/
def parseIntToken (cs : List Char) : Option (Int × List Char) :=
  let p := match cs with
    | '-' :: rest => (true, rest)
    | _ => (false, cs)
  match takeDigits p.2 with
  | ([], _) => none
  | (d :: ds, rest) =>
    if d = '0' ∧ ds ≠ [] then none
    else
      match rest with
      | e :: _ =>
        if e = '.' ∨ e = 'e' ∨ e = 'E' then none
        else some (if p.1 then -(digitsToNat (d :: ds) 0 : Int) else (digitsToNat (d :: ds) 0 : Int), rest)
      | [] => some (if p.1 then -(digitsToNat (d :: ds) 0 : Int) else (digitsToNat (d :: ds) 0 : Int), rest)

/-- Body of a JSON string literal, after the opening quote: accumulate
characters until the closing quote, decoding the standard escapes. -/
def parseStringBody : Nat → List Char → List Char → Option (String × List Char)
  | 0, _, _ => none
  | _ + 1, [], _ => none
  | fuel + 1, c :: rest, acc =>
    if c = '"' then some (String.mk acc.reverse, rest)
    else if c = '\\' then
      match rest with
      | [] => none
      | e :: rest2 =>
        if e = '"' then parseStringBody fuel rest2 ('"' :: acc)
        else if e = '\\' then parseStringBody fuel rest2 ('\\' :: acc)
        else if e = '/' then parseStringBody fuel rest2 ('/' :: acc)
        else if e = 'n' then parseStringBody fuel rest2 ('\n' :: acc)
        else if e = 't' then parseStringBody fuel rest2 ('\t' :: acc)
        else if e = 'r' then parseStringBody fuel rest2 ('\r' :: acc)
        else if e = 'b' then parseStringBody fuel rest2 ('\x08' :: acc)
        else if e = 'f' then parseStringBody fuel rest2 ('\x0c' :: acc)
        else if e = 'u' then
          match rest2 with
          | h1 :: h2 :: h3 :: h4 :: rest3 =>
            match hexDigitVal h1, hexDigitVal h2, hexDigitVal h3, hexDigitVal h4 with
            | some a, some b, some c2, some d =>
              parseStringBody fuel rest3 (Char.ofNat (((a * 16 + b) * 16 + c2) * 16 + d) :: acc)
            | _, _, _, _ => none
          | _ => none
        else none
    else parseStringBody fuel rest (c :: acc)

mutual

/-- JSON value: object, array, string, integer, `true`, `false`, `null`,
with surrounding whitespace skipped.  Fuel-based recursion so that the
definition reduces by `rfl`/`decide`. -/
def parseValue : Nat → List Char → Option (PyVal × List Char)
  | 0, _ => none
  | fuel + 1, cs =>
    match skipWs cs with
    | [] => none
    | c :: rest =>
      if c = '\x7b' then parseMembersStart fuel rest
      else if c = '[' then parseItemsStart fuel rest
      else if c = '"' then
        match parseStringBody (rest.length + 1) rest [] with
        | some (s, rest2) => some (PyVal.str s, rest2)
        | none => none
      else if c = 't' then
        match rest with
        | 'r' :: 'u' :: 'e' :: rest2 => some (PyVal.bool true, rest2)
        | _ => none
      else if c = 'f' then
        match rest with
        | 'a' :: 'l' :: 's' :: 'e' :: rest2 => some (PyVal.bool false, rest2)
        | _ => none
      else if c = 'n' then
        match rest with
        | 'u' :: 'l' :: 'l' :: rest2 => some (PyVal.pyNone, rest2)
        | _ => none
      else
        match parseIntToken (c :: rest) with
        | some (n, rest2) => some (PyVal.int n, rest2)
        | none => none

/-- Object body, just after the opening brace: empty object or members. -/
def parseMembersStart : Nat → List Char → Option (PyVal × List Char)
  | 0, _ => none
  | fuel + 1, cs =>
    match skipWs cs with
    | '\x7d' :: rest => some (PyVal.dict [], rest)
    | _ => parseMembers fuel cs []

/-- Members of a JSON object: `"key": value` pairs separated by commas. -/
def parseMembers : Nat → List Char → List (String × PyVal) → Option (PyVal × List Char)
  | 0, _, _ => none
  | fuel + 1, cs, acc =>
    match skipWs cs with
    | '"' :: rest =>
      match parseStringBody (rest.length + 1) rest [] with
      | some (k, rest2) =>
        match skipWs rest2 with
        | ':' :: rest3 =>
          match parseValue fuel rest3 with
          | some (v, rest4) =>
            match skipWs rest4 with
            | ',' :: rest5 => parseMembers fuel rest5 (acc ++ [(k, v)])
            | '\x7d' :: rest5 => some (PyVal.dict (acc ++ [(k, v)]), rest5)
            | _ => none
          | none => none
        | _ => none
      | none => none
    | _ => none

/-- Array body, just after the opening bracket: empty array or items. -/
def parseItemsStart : Nat → List Char → Option (PyVal × List Char)
  | 0, _ => none
  | fuel + 1, cs =>
    match skipWs cs with
    | ']' :: rest => some (PyVal.list [], rest)
    | _ => parseItems fuel cs []

/-- Items of a JSON array: values separated by commas. -/
def parseItems : Nat → List Char → List PyVal → Option (PyVal × List Char)
  | 0, _, _ => none
  | fuel + 1, cs, acc =>
    match parseValue fuel cs with
    | some (v, rest) =>
      match skipWs rest with
      | ',' :: rest2 => parseItems fuel rest2 (acc ++ [v])
      | ']' :: rest2 => some (PyVal.list (acc ++ [v]), rest2)
      | _ => none
    | none => none

end

/-- Model of `json.loads` on text: parse one JSON document, requiring only
whitespace after it.  `none` models a raised `json.JSONDecodeError`.  The
fuel `3 * length + 8` exceeds the recursion any input can demand (every
recursive call follows consumed input). -/
def jsonParse (s : String) : Option PyVal :=
  match parseValue (3 * s.data.length + 8) s.data with
  | some (v, rest) =>
    match skipWs rest with
    | [] => some v
    | _ => none
  | none => none

/-- Lowercase hexadecimal digit for a value below 16. -/
def hexDigitChar (n : Nat) : Char :=
  if n < 10 then Char.ofNat ('0'.toNat + n) else Char.ofNat ('a'.toNat + n - 10)

/-- JSON escaping of one character, following `json.dumps` defaults
(`ensure_ascii=True`): the short escapes, and `\uXXXX` with lowercase hex
for other characters outside printable ASCII. -/
def escapeChar (c : Char) : List Char :=
  if c = '"' then ['\\', '"']
  else if c = '\\' then ['\\', '\\']
  else if c = '\n' then ['\\', 'n']
  else if c = '\t' then ['\\', 't']
  else if c = '\r' then ['\\', 'r']
  else if c = '\x08' then ['\\', 'b']
  else if c = '\x0c' then ['\\', 'f']
  else if c.toNat < 32 ∨ 127 ≤ c.toNat then
    ['\\', 'u', hexDigitChar (c.toNat / 4096 % 16), hexDigitChar (c.toNat / 256 % 16),
      hexDigitChar (c.toNat / 16 % 16), hexDigitChar (c.toNat % 16)]
  else [c]

/-- JSON string literal for a text value, quotes included. -/
def quoteJson (s : String) : String :=
  String.mk ('"' :: s.data.foldr (fun c acc => escapeChar c ++ acc) ['"'])

mutual

/-- Fuel-based worker for the `json.dumps` model.  `none` models a raised
`TypeError` (`bytes` is not JSON serializable). -/
def jsonDumpsF : Nat → PyVal → Option String
  | 0, _ => none
  | fuel + 1, v =>
    match v with
    | PyVal.dict es =>
      match dumpEntries fuel es with
      | some body => some ("\x7b" ++ body ++ "\x7d")
      | none => none
    | PyVal.list xs =>
      match dumpItems fuel xs with
      | some body => some ("[" ++ body ++ "]")
      | none => none
    | PyVal.str s => some (quoteJson s)
    | PyVal.int n => some (toString n)
    | PyVal.bool b => some (if b then "true" else "false")
    | PyVal.pyNone => some "null"
    | PyVal.bytes _ => none

/-- Members of an object rendered `"key": value`, joined by `", "` (the
`json.dumps` default separators). -/
def dumpEntries : Nat → List (String × PyVal) → Option String
  | 0, _ => none
  | _ + 1, [] => some ""
  | fuel + 1, (k, v) :: rest =>
    match jsonDumpsF fuel v, dumpEntries fuel rest with
    | some sv, some tail =>
      some (quoteJson k ++ ": " ++ sv ++ (if rest.isEmpty then "" else ", ") ++ tail)
    | _, _ => none

/-- Items of an array, joined by `", "`. -/
def dumpItems : Nat → List PyVal → Option String
  | 0, _ => none
  | _ + 1, [] => some ""
  | fuel + 1, v :: rest =>
    match jsonDumpsF fuel v, dumpItems fuel rest with
    | some sv, some tail => some (sv ++ (if rest.isEmpty then "" else ", ") ++ tail)
    | _, _ => none

end

/-- Model of `json.dumps` with its default arguments.  The fuel bounds the
container nesting depth at 1000, mirroring CPython's default recursion
limit (past it `json.dumps` raises `RecursionError`); every value in the
claims is nowhere near it. -/
def jsonDumps (v : PyVal) : Option String :=
  jsonDumpsF 1000 v

/-- Client state set by `Caddy.__init__` (caddy.py lines 31-44): the
endpoint identity and the optional `Origin` header value, all immutable. -/
structure Caddy : Type where
  host : String
  port : Nat
  protocol : String
  headers_origin : Option String

/-- Python truthiness of an optional string: `None` and `""` are falsy. -/
def truthy : Option String → Bool
  | none => false
  | some s => !s.isEmpty

/-- Model of Python `s.lstrip('/')`: remove every leading `/`. -/
def lstripSlash (s : String) : String :=
  String.mk (s.data.dropWhile (fun c => c = '/'))

namespace Caddy

/-- Embeds `Caddy._generate_url` (caddy.py lines 45-52):
`'{}://{}:{}/'.format(self.protocol, self.host, self.port)`. -/
def generate_url (c : Caddy) : String :=
  c.protocol ++ "://" ++ c.host ++ ":" ++ toString c.port ++ "/"

/-- Embeds `Caddy._generate_url_by_path` (caddy.py lines 54-71): starting
from the base URL, append `config/` when both arguments are falsy, then
`id/<config_id>` when `config_id` is truthy, then `/` plus the
left-slash-stripped path when `path` is truthy. -/
def generate_url_by_path (c : Caddy) (path config_id : Option String) : String :=
  let u0 := generate_url c
  let u1 := if !truthy path && !truthy config_id then u0 ++ "config/" else u0
  let u2 := if truthy config_id then u1 ++ "id/" ++ config_id.getD "" else u1
  if truthy path then u2 ++ "/" ++ lstripSlash (path.getD "") else u2

/-- Embeds `Caddy._prepare_config_data` (caddy.py lines 73-92).  A `dict`
is returned as is.  Anything else goes through `json.loads`: for a `str`
a `JSONDecodeError` is caught and the original string returned; for
`bytes` the `JSONDecodeError` is re-raised; for any other type
`json.loads` itself raises `TypeError`, which the `except` clause does not
catch. -/
def prepare_config_data (config : PyVal) : Except PyError PyVal :=
  match config with
  | PyVal.dict es => Except.ok (PyVal.dict es)
  | PyVal.str s =>
    match jsonParse s with
    | some v => Except.ok v
    | none => Except.ok (PyVal.str s)
  | PyVal.bytes b =>
    match jsonParse b with
    | some v => Except.ok v
    | none => Except.error PyError.jsonDecodeError
  | _ => Except.error PyError.typeError

end Caddy

/-- Body handed to `requests.request`: absent, a string, or a non-`dict`
non-`str` Python value passed through verbatim. -/
inductive Body : Type where
  | noBody : Body
  | strBody : String → Body
  | rawBody : PyVal → Body

/-- Test `type(v) in [dict, str]` from caddy.py line 106. -/
def isDictOrStr : PyVal → Bool
  | PyVal.dict _ => true
  | PyVal.str _ => true
  | _ => false

/-- The request `_execute` builds: method, URL, headers, body. -/
structure Request : Type where
  method : String
  url : String
  headers : List (String × String)
  body : Body

/-- Response delivered by the external transport. -/
structure HttpResponse : Type where
  status : Nat
  content : String

/-- Status test of `requests.Response.raise_for_status`: every 4xx and 5xx
status raises `HTTPError`, no other status does. -/
def statusIsError (status : Nat) : Bool :=
  400 ≤ status && status < 600

namespace Caddy

/-- Embeds line 106 of `_execute`:
`data = json.dumps(data) if type(data) in [dict, str] else data`.
`Option.none` is Python `None` (no `data` argument): its type is in
neither list, it stays `None` and `requests` sends no body; the same
happens when the value itself is `None`.  A `dict` or `str` is serialized
with `json.dumps`; every other value is handed to `requests` unchanged. -/
def executeBody (data : Option PyVal) : Except PyError Body :=
  match data with
  | none => Except.ok Body.noBody
  | some PyVal.pyNone => Except.ok Body.noBody
  | some v =>
    if isDictOrStr v then
      match jsonDumps v with
      | some s => Except.ok (Body.strBody s)
      | none => Except.error PyError.typeError
    else Except.ok (Body.rawBody v)

/-- Embeds lines 99-104 of `_execute`: a `Content-Type: application/json`
header always, plus `Origin` when `self.headers_origin` is truthy. -/
def executeHeaders (c : Caddy) : List (String × String) :=
  if truthy c.headers_origin then
    [("Content-Type", "application/json"), ("Origin", c.headers_origin.getD "")]
  else
    [("Content-Type", "application/json")]

/-- Embeds `Caddy._execute` (caddy.py lines 94-114) with the network call
made explicit: the prepared body and headers form the issued `Request`;
`raise_for_status` turns a 4xx/5xx response into an `HTTPError` carrying
the status and body; on success the raw response content is returned. -/
def execute (c : Caddy) (url : String) (method : String) (data : Option PyVal)
    (resp : HttpResponse) : Except PyError (Request × String) :=
  match executeBody data with
  | Except.error e => Except.error e
  | Except.ok b =>
    if statusIsError resp.status then
      Except.error (PyError.httpError resp.status resp.content)
    else
      Except.ok (⟨method, url, executeHeaders c, b⟩, resp.content)

/-- Embeds `Caddy.config` (caddy.py lines 116-137): GET the resolved URL;
when `raw` is false the response is passed to `json.loads` with no
fallback, so a parse failure raises `JSONDecodeError`; when `raw` is true
the raw bytes are returned. -/
def config (c : Caddy) (path config_id : Option String) (raw : Bool)
    (resp : HttpResponse) : Except PyError PyVal :=
  match execute c (generate_url_by_path c path config_id) "GET" none resp with
  | Except.error e => Except.error e
  | Except.ok (_, res) =>
    if !raw then
      match jsonParse res with
      | some v => Except.ok v
      | none => Except.error PyError.jsonDecodeError
    else Except.ok (PyVal.bytes res)

/-- Embeds `Caddy.load` (caddy.py lines 139-150): normalize the config and
POST it to the URL resolved from `path='config/'`. -/
def load (c : Caddy) (config : PyVal) (resp : HttpResponse) :
    Except PyError (Request × String) :=
  match prepare_config_data config with
  | Except.error e => Except.error e
  | Except.ok cfg =>
    execute c (generate_url_by_path c (some "config/") none) "POST" (some cfg) resp

/-- Embeds `Caddy.add` (caddy.py lines 152-182): normalize the config and
PUT it to the URL resolved from `path` and `config_id`. -/
def add (c : Caddy) (config : PyVal) (path : String) (config_id : Option String)
    (resp : HttpResponse) : Except PyError (Request × String) :=
  match prepare_config_data config with
  | Except.error e => Except.error e
  | Except.ok cfg =>
    execute c (generate_url_by_path c (some path) config_id) "PUT" (some cfg) resp

/-- Embeds `Caddy.update` (caddy.py lines 184-224): normalize the config
and PATCH it to the URL resolved from `path` and `config_id`. -/
def update (c : Caddy) (config : PyVal) (path : String) (config_id : Option String)
    (resp : HttpResponse) : Except PyError (Request × String) :=
  match prepare_config_data config with
  | Except.error e => Except.error e
  | Except.ok cfg =>
    execute c (generate_url_by_path c (some path) config_id) "PATCH" (some cfg) resp

/-- Embeds `Caddy.stop` (caddy.py lines 226-233): POST to the URL resolved
from `path='stop'`. -/
def stop (c : Caddy) (resp : HttpResponse) : Except PyError (Request × String) :=
  execute c (generate_url_by_path c (some "stop") none) "POST" none resp

/-- Embeds `Caddy.delete` (caddy.py lines 235-242): DELETE the URL
resolved from `path`. -/
def delete (c : Caddy) (path : String) (resp : HttpResponse) :
    Except PyError (Request × String) :=
  execute c (generate_url_by_path c (some path) none) "DELETE" none resp

end Caddy

/-! ## Shared lemmas -/

/-- Serialization of a plain string value always succeeds and is the quoted,
escaped JSON string literal. -/
theorem jsonDumps_str (s : String) : jsonDumps (PyVal.str s) = some (quoteJson s) :=
  rfl

/-- Emptiness test of a non-empty string. -/
theorem isEmpty_false_of_ne (s : String) (h : s ≠ "") : s.isEmpty = false := by
  cases hemp : s.isEmpty with
  | true => exact absurd ((String.isEmpty_iff s).mp hemp) h
  | false => rfl

/-! ## Claims -/

/-- C1: the spec says `config` with decoding requested (raw mode off) falls
back to returning the raw response bytes when they fail to parse as JSON.
The code has no such fallback: `json.loads(res)` is called bare (caddy.py
line 135), so on the body `"plain text"` it raises `JSONDecodeError`
instead of returning the bytes, contradicting the method's own docstring
("If any error in the json parse, will return default content"). -/
theorem C1_read_parse_failure_raises :
    jsonParse "plain text" = none ∧
    Caddy.config ⟨"example.com", 2019, "http", none⟩ none none false ⟨200, "plain text"⟩ =
      Except.error PyError.jsonDecodeError :=
  ⟨rfl, rfl⟩

/-- C2 counterexample: with base `http://h:2019/` and path `foo/bar` (no
identifier), resolution yields `http://h:2019//foo/bar` — the code appends
`'/' + path.lstrip('/')` to a base that already ends in `/` — not the
`http://h:2019/foo/bar` the claim states. -/
theorem C2_counterexample :
    Caddy.generate_url_by_path ⟨"h", 2019, "http", none⟩ (some "foo/bar") none =
      "http://h:2019//foo/bar" ∧
    Caddy.generate_url_by_path ⟨"h", 2019, "http", none⟩ (some "foo/bar") none ≠
      "http://h:2019/foo/bar" :=
  ⟨rfl, by decide⟩

/-- C2 amended: for every non-empty path with the identifier absent,
resolution yields base + `/` + the path with all leading separators
stripped; since the base already ends in `/`, the target carries a double
separator, and no root segment is inserted. -/
theorem C2_amended (c : Caddy) (p : String) (hp : p ≠ "") :
    Caddy.generate_url_by_path c (some p) none =
      Caddy.generate_url c ++ "/" ++ lstripSlash p := by
  have hpe := isEmpty_false_of_ne p hp
  simp [Caddy.generate_url_by_path, truthy, hpe]

/-- C2 amended, witnessed at path `foo/bar` against host `h`. -/
theorem C2_amended_witness :
    Caddy.generate_url_by_path ⟨"h", 2019, "http", none⟩ (some "foo/bar") none =
      Caddy.generate_url ⟨"h", 2019, "http", none⟩ ++ "/" ++ lstripSlash "foo/bar" :=
  C2_amended ⟨"h", 2019, "http", none⟩ "foo/bar" (by decide)

/-- C3 counterexample: normalization is not idempotent.  The string
`"5"` (quote, 5, quote) normalizes to the string `5`, but normalizing the
string `5` again parses it to the integer 5, a different value. -/
theorem C3_counterexample :
    Caddy.prepare_config_data (PyVal.str "\"5\"") = Except.ok (PyVal.str "5") ∧
    Caddy.prepare_config_data (PyVal.str "5") = Except.ok (PyVal.int 5) ∧
    (Except.ok (PyVal.int 5) : Except PyError PyVal) ≠ Except.ok (PyVal.str "5") := by
  refine ⟨rfl, rfl, ?_⟩
  simp

/-- C3 amended: normalization is idempotent only on the part of its image
consisting of mappings and strings that do not parse as JSON: if
normalizing `x` yields such a value, normalizing it again returns it
unchanged.  On the rest of the image it is not: a produced string that
parses as JSON is re-parsed, and a produced non-mapping non-string value
(number, list, boolean, null) makes the second pass raise `TypeError`. -/
theorem C3_amended (x v : PyVal) (h : Caddy.prepare_config_data x = Except.ok v)
    (hv : (∃ es, v = PyVal.dict es) ∨ (∃ s, v = PyVal.str s ∧ jsonParse s = none)) :
    Caddy.prepare_config_data v = Except.ok v := by
  rcases hv with ⟨es, rfl⟩ | ⟨s, rfl, hs⟩
  · rfl
  · simp [Caddy.prepare_config_data, hs]

/-- C3 amended, witnessed at the non-JSON string `plain text`, a fixed
point of normalization. -/
theorem C3_amended_witness :
    Caddy.prepare_config_data (PyVal.str "plain text") = Except.ok (PyVal.str "plain text") :=
  C3_amended (PyVal.str "plain text") (PyVal.str "plain text") rfl
    (Or.inr ⟨"plain text", rfl, rfl⟩)

/-- C4 counterexample: a string body is not sent unchanged.  The guard
`type(data) in [dict, str]` (caddy.py line 106) routes strings through
`json.dumps`, so the body `plain` is sent as the quoted JSON text
`"plain"`. -/
theorem C4_counterexample :
    Caddy.executeBody (some (PyVal.str "plain")) = Except.ok (Body.strBody "\"plain\"") ∧
    "\"plain\"" ≠ "plain" :=
  ⟨rfl, by decide⟩

/-- C4 amended: the transport invoker serializes a structured mapping body
to its canonical JSON text, and serializes a string body the same way
(quoting and escaping it rather than sending it unchanged); a byte body is
passed through unchanged; when no body is supplied no body is sent. -/
theorem C4_amended :
    Caddy.executeBody none = Except.ok Body.noBody ∧
    (∀ s : String,
      Caddy.executeBody (some (PyVal.str s)) = Except.ok (Body.strBody (quoteJson s))) ∧
    (∀ es s, jsonDumps (PyVal.dict es) = some s →
      Caddy.executeBody (some (PyVal.dict es)) = Except.ok (Body.strBody s)) ∧
    (∀ b : String,
      Caddy.executeBody (some (PyVal.bytes b)) = Except.ok (Body.rawBody (PyVal.bytes b))) := by
  refine ⟨rfl, fun s => rfl, fun es s h => ?_, fun b => rfl⟩
  simp [Caddy.executeBody, isDictOrStr, h]

/-- C4 amended, witnessed on the one-entry mapping {"a": 1}, serialized to
its canonical JSON text. -/
theorem C4_amended_witness :
    Caddy.executeBody (some (PyVal.dict [("a", PyVal.int 1)])) =
      Except.ok (Body.strBody "\x7b\"a\": 1\x7d") :=
  C4_amended.2.2.1 [("a", PyVal.int 1)] "\x7b\"a\": 1\x7d" rfl

/-- C5 counterexample: `lstrip('/')` removes every leading separator, not
exactly one: identifier `host` with path `//host/0` resolves to
`.../id/host/host/0`, not the `.../id/host//host/0` that stripping a
single separator would give. -/
theorem C5_counterexample :
    Caddy.generate_url_by_path ⟨"h", 2019, "http", none⟩ (some "//host/0") (some "host") =
      "http://h:2019/id/host/host/0" ∧
    Caddy.generate_url_by_path ⟨"h", 2019, "http", none⟩ (some "//host/0") (some "host") ≠
      "http://h:2019/id/host//host/0" :=
  ⟨rfl, by decide⟩

/-- C5 amended: for every non-empty identifier, resolution yields
base + `id/<identifier>`; if a non-empty path is also given, `/` + path is
appended with all leading path separators stripped from the path.  In
particular identifier `host` with path `host/0` targets
`.../id/host/host/0`, and the insert operation issues a PUT on it. -/
theorem C5_amended (c : Caddy) (i p : String) (hi : i ≠ "") (hp : p ≠ "") :
    Caddy.generate_url_by_path c none (some i) = Caddy.generate_url c ++ "id/" ++ i ∧
    Caddy.generate_url_by_path c (some p) (some i) =
      Caddy.generate_url c ++ "id/" ++ i ++ "/" ++ lstripSlash p ∧
    Caddy.add ⟨"h", 2019, "http", none⟩ (PyVal.dict []) "host/0" (some "host") ⟨200, "ok"⟩ =
      Except.ok (⟨"PUT", "http://h:2019/id/host/host/0",
        [("Content-Type", "application/json")], Body.strBody "\x7b\x7d"⟩, "ok") := by
  have hie := isEmpty_false_of_ne i hi
  have hpe := isEmpty_false_of_ne p hp
  refine ⟨?_, ?_, rfl⟩
  · simp [Caddy.generate_url_by_path, truthy, hie]
  · simp [Caddy.generate_url_by_path, truthy, hie, hpe]

/-- C5 amended, witnessed at identifier `host`, path `host/0`. -/
theorem C5_amended_witness :
    Caddy.generate_url_by_path ⟨"h", 2019, "http", none⟩ (some "host/0") (some "host") =
      Caddy.generate_url ⟨"h", 2019, "http", none⟩ ++ "id/" ++ "host" ++ "/" ++
        lstripSlash "host/0" :=
  (C5_amended ⟨"h", 2019, "http", none⟩ "host" "host/0" (by decide) (by decide)).2.1

/-- C6 counterexample: normalizing the boolean `True` raises `TypeError`
(`json.loads` rejects its argument type before parsing, and the `except`
clause only catches `JSONDecodeError`), not a JSON decoding error. -/
theorem C6_counterexample :
    Caddy.prepare_config_data (PyVal.bool true) = Except.error PyError.typeError ∧
    PyError.typeError ≠ PyError.jsonDecodeError :=
  ⟨rfl, by decide⟩

/-- C6 amended: normalization of an input that is neither a mapping nor a
plain string never passes the value through — it always raises — but the
error is `JSONDecodeError` exactly for byte strings whose parse fails; for
every other such input (number, boolean, list, None) `json.loads` raises
`TypeError` before any parsing. -/
theorem C6_amended (v : PyVal)
    (hd : ∀ es, v ≠ PyVal.dict es) (hs : ∀ s, v ≠ PyVal.str s)
    (hb : ∀ b, v = PyVal.bytes b → jsonParse b = none) :
    (∃ e, Caddy.prepare_config_data v = Except.error e) ∧
    (∀ b, v = PyVal.bytes b →
      Caddy.prepare_config_data v = Except.error PyError.jsonDecodeError) ∧
    ((∀ b, v ≠ PyVal.bytes b) →
      Caddy.prepare_config_data v = Except.error PyError.typeError) := by
  cases v with
  | dict es => exact absurd rfl (hd es)
  | str s => exact absurd rfl (hs s)
  | bytes b =>
    have hpb : jsonParse b = none := hb b rfl
    have hres : Caddy.prepare_config_data (PyVal.bytes b) =
        Except.error PyError.jsonDecodeError := by
      simp [Caddy.prepare_config_data, hpb]
    exact ⟨⟨PyError.jsonDecodeError, hres⟩, fun _ _ => hres, fun hnb => absurd rfl (hnb b)⟩
  | list xs => exact ⟨⟨PyError.typeError, rfl⟩, fun b h => by simp at h, fun _ => rfl⟩
  | int n => exact ⟨⟨PyError.typeError, rfl⟩, fun b h => by simp at h, fun _ => rfl⟩
  | bool b => exact ⟨⟨PyError.typeError, rfl⟩, fun b h => by simp at h, fun _ => rfl⟩
  | pyNone => exact ⟨⟨PyError.typeError, rfl⟩, fun b h => by simp at h, fun _ => rfl⟩

/-- C6 amended, witnessed at the boolean `True`: normalization raises
`TypeError` rather than passing the value through. -/
theorem C6_amended_witness :
    Caddy.prepare_config_data (PyVal.bool true) = Except.error PyError.typeError :=
  (C6_amended (PyVal.bool true) (fun es h => by simp at h) (fun s h => by simp at h)
    (fun b h => by simp at h)).2.2 (fun b h => by simp at h)

/-- C7: for every response whose status is in the error range of
`raise_for_status` (4xx / 5xx), the transport call never returns a success
value, and — whenever the body preparation itself did not raise — it fails
with an `HTTPError` carrying the status code and the response body. -/
theorem C7_transport_error (c : Caddy) (url method : String) (data : Option PyVal)
    (resp : HttpResponse) (h4 : 400 ≤ resp.status) (h6 : resp.status < 600) :
    (∀ r, Caddy.execute c url method data resp ≠ Except.ok r) ∧
    (∀ b, Caddy.executeBody data = Except.ok b →
      Caddy.execute c url method data resp =
        Except.error (PyError.httpError resp.status resp.content)) := by
  have hs : statusIsError resp.status = true := by
    simp [statusIsError]
    exact ⟨h4, h6⟩
  constructor
  · intro r hr
    unfold Caddy.execute at hr
    cases hb : Caddy.executeBody data with
    | error e => rw [hb] at hr; exact absurd hr (by simp)
    | ok b => rw [hb] at hr; simp [hs] at hr
  · intro b hb
    unfold Caddy.execute
    rw [hb]
    simp [hs]

/-- C7, witnessed by a GET receiving HTTP 500 with body `boom`. -/
theorem C7_transport_error_witness :
    Caddy.execute ⟨"example.com", 2019, "http", none⟩ "http://example.com:2019/config/"
      "GET" none ⟨500, "boom"⟩ = Except.error (PyError.httpError 500 "boom") :=
  (C7_transport_error ⟨"example.com", 2019, "http", none⟩ "http://example.com:2019/config/"
    "GET" none ⟨500, "boom"⟩ (by decide) (by decide)).2 Body.noBody rfl

/-- C8: with both path and identifier absent, resolution yields exactly
base + `config/`; concretely, the client for host `example.com`, port
2019, protocol `http` resolves the read target
`http://example.com:2019/config/`. -/
theorem C8_root_config_target (c : Caddy) :
    Caddy.generate_url_by_path c none none = Caddy.generate_url c ++ "config/" ∧
    Caddy.generate_url_by_path ⟨"example.com", 2019, "http", none⟩ none none =
      "http://example.com:2019/config/" :=
  ⟨rfl, rfl⟩

/-- C9: normalization returns a plain string that fails to parse as JSON
unchanged (opaque pass-through), and returns every structured mapping
unchanged (identity). -/
theorem C9_passthrough_identity (s : String) (hs : jsonParse s = none) :
    Caddy.prepare_config_data (PyVal.str s) = Except.ok (PyVal.str s) ∧
    (∀ es, Caddy.prepare_config_data (PyVal.dict es) = Except.ok (PyVal.dict es)) := by
  refine ⟨?_, fun es => rfl⟩
  simp [Caddy.prepare_config_data, hs]

/-- C9, witnessed at the string `not json`. -/
theorem C9_passthrough_identity_witness :
    Caddy.prepare_config_data (PyVal.str "not json") = Except.ok (PyVal.str "not json") :=
  (C9_passthrough_identity "not json" rfl).1

/-- C10: an empty-string path and an empty-string identifier are exactly as
falsy as absent ones, so resolution takes the same branches: either empty
argument may be replaced by an absent one without changing the target, and
with both empty the target is base + `config/`. -/
theorem C10_empty_equals_absent (c : Caddy) :
    (∀ cid, Caddy.generate_url_by_path c (some "") cid =
      Caddy.generate_url_by_path c none cid) ∧
    (∀ p, Caddy.generate_url_by_path c p (some "") =
      Caddy.generate_url_by_path c p none) ∧
    Caddy.generate_url_by_path c (some "") (some "") = Caddy.generate_url c ++ "config/" :=
  ⟨fun _ => rfl, fun _ => rfl, rfl⟩
